import Mathlib

/-!
Shallow embedding of `src/components/Gallery.js` from the ai-gallery
repository: a paginated image-gallery view with fetch/validate/error
state handling, page navigation, and a username sanitizer.

JSON numbers arriving from the server are modelled as integers; a field
that is absent is modelled as `JsNum.undef`, and arithmetic on a missing
value produces `JsNum.nan`, mirroring JavaScript's `undefined - 1 = NaN`.
-/

namespace Gallery

/-- A JavaScript numeric value as it occurs in the gallery state and in
decoded response bodies: an integer, `NaN`, or `undefined`. -/
inductive JsNum where
  | int (n : Int)
  | nan
  | undef
deriving DecidableEq, Repr

/-- JavaScript subtraction `x - k` with an integer literal `k`:
`undefined - k` and `NaN - k` are both `NaN`. -/
def jsSub : JsNum → Int → JsNum
  | JsNum.int n, k => JsNum.int (n - k)
  | _, _ => JsNum.nan

/-- JavaScript addition `x + k` with an integer literal `k`. -/
def jsAdd : JsNum → Int → JsNum
  | JsNum.int n, k => JsNum.int (n + k)
  | _, _ => JsNum.nan

/-- `Math.max(x, 1)`: `Math.max(NaN, 1) = NaN`. -/
def jsMaxOne : JsNum → JsNum
  | JsNum.int n => JsNum.int (max n 1)
  | _ => JsNum.nan

/-- `Math.min(x, y)`: `NaN` if either argument is not a number. -/
def jsMin : JsNum → JsNum → JsNum
  | JsNum.int a, JsNum.int b => JsNum.int (min a b)
  | _, _ => JsNum.nan

/-- JavaScript strict comparison `x > 0`: false on `NaN`/`undefined`. -/
def jsGtZero : JsNum → Bool
  | JsNum.int n => decide (0 < n)
  | _ => false

/-- JavaScript strict equality `===` on numeric values:
`NaN === NaN` is false, `undefined === undefined` is true. -/
def jsStrictEq : JsNum → JsNum → Bool
  | JsNum.int a, JsNum.int b => decide (a = b)
  | JsNum.undef, JsNum.undef => true
  | _, _ => false

/-- `Object.is` on numeric values (used by React for state-bailout and
effect-dependency comparison): `Object.is(NaN, NaN)` is true. -/
def jsSameValue : JsNum → JsNum → Bool
  | JsNum.int a, JsNum.int b => decide (a = b)
  | JsNum.nan, JsNum.nan => true
  | JsNum.undef, JsNum.undef => true
  | _, _ => false

/-- `Math.ceil(n / 20)` for an integer `n`: ceiling division by the fixed
page size 20, written with floor division of the negation. -/
def ceilDivTwenty (n : Int) : Int := -(Int.fdiv (-n) 20)

/-- `Math.ceil(x / 20)` on a JavaScript numeric value:
`Math.ceil(undefined / 20) = Math.ceil(NaN) = NaN`. -/
def jsCeilDivTwenty : JsNum → JsNum
  | JsNum.int n => JsNum.int (ceilDivTwenty n)
  | _ => JsNum.nan

/-- A JavaScript value as it occurs in the `username` field of an image
record: a string or one of the non-string shapes `typeof` distinguishes. -/
inductive JsVal where
  | str (s : String)
  | num (x : JsNum)
  | boolean (b : Bool)
  | nullVal
  | undefVal
deriving DecidableEq, Repr

/-- One image record of a page result
(`{ id, image_path, prompt, username }`). -/
structure Image where
  id : Int
  image_path : String
  prompt : String
  username : JsVal
deriving DecidableEq, Repr

/-- The `images` field of a decoded response body: `rows` is `some` list
exactly when `Array.isArray(data.images.rows)` holds, and `rowCount` is
the declared row count (`undef` when absent). -/
structure ImagesField where
  rows : Option (List Image)
  rowCount : JsNum
deriving DecidableEq, Repr

/-- A decoded response body `data`: `images` is `some` exactly when the
truthiness test `data.images` passes; `currentPage` and `totalPages` are
`undef` when absent. -/
structure ResponseData where
  images : Option ImagesField
  currentPage : JsNum
  totalPages : JsNum
deriving DecidableEq, Repr

/-- The Gallery view state: the five `useState` hooks of the component. -/
structure GalleryState where
  images : List Image
  currentPage : JsNum
  totalPages : JsNum
  isLoading : Bool
  error : Option String
deriving DecidableEq, Repr

/-- The initial state at first mount:
`images=[], currentPage=1, totalPages=1, isLoading=false, error=null`. -/
def initialState : GalleryState :=
  { images := []
    currentPage := JsNum.int 1
    totalPages := JsNum.int 1
    isLoading := false
    error := none }

/-- The shape test of `updateGalleryState`:
`data.images && Array.isArray(data.images.rows)`. -/
def validShape (data : ResponseData) : Bool :=
  match data.images with
  | some img => img.rows.isSome
  | none => false

/-- The resolved total-page count of a valid response:
`data.totalPages > 0 ? data.totalPages : Math.ceil(data.images.rowCount / 20)`. -/
def calculatedTotalPages (data : ResponseData) (img : ImagesField) : JsNum :=
  if jsGtZero data.totalPages then data.totalPages
  else jsCeilDivTwenty img.rowCount

/-- `updateGalleryState(data)`: on a valid shape, set `images`,
`currentPage` and the calculated `totalPages`; otherwise set the
invalid-data error and clear `images`. -/
def updateGalleryState (s : GalleryState) (data : ResponseData) : GalleryState :=
  match data.images with
  | some img =>
    match img.rows with
    | some rows =>
      { s with
        images := rows
        currentPage := data.currentPage
        totalPages := calculatedTotalPages data img }
    | none =>
      { s with error := some "Received invalid data from server", images := [] }
  | none =>
    { s with error := some "Received invalid data from server", images := [] }

/-- `handleFetchError(error)`: set the transport-failure message.
It does not touch `images`, `currentPage` or `totalPages`. -/
def handleFetchError (s : GalleryState) : GalleryState :=
  { s with error := some "Failed to load images. Please try again later." }

/-- The outcome of the awaited `axios.get` call: either the promise
rejects (transport failure) or it resolves with a decoded body. -/
inductive FetchResult where
  | failure
  | success (data : ResponseData)
deriving DecidableEq, Repr

/-- One complete run of `fetchImages()` whose awaited request ends in
`r`: `setIsLoading(true); setError(null);` then either
`updateGalleryState(response.data)` or `handleFetchError(error)`, and
`setIsLoading(false)` unconditionally at the end. -/
def fetchImages (s : GalleryState) (r : FetchResult) : GalleryState :=
  let started := { s with isLoading := true, error := none }
  let resolved :=
    match r with
    | FetchResult.success data => updateGalleryState started data
    | FetchResult.failure => handleFetchError started
  { resolved with isLoading := false }

/-- `goToPreviousPage`: `setCurrentPage(prev => Math.max(prev - 1, 1))`. -/
def goToPreviousPage (s : GalleryState) : GalleryState :=
  { s with currentPage := jsMaxOne (jsSub s.currentPage 1) }

/-- `goToNextPage`: `setCurrentPage(prev => Math.min(prev + 1, totalPages))`. -/
def goToNextPage (s : GalleryState) : GalleryState :=
  { s with currentPage := jsMin (jsAdd s.currentPage 1) s.totalPages }

/-- An event that mutates the Gallery view state: a resolving fetch
attempt or one of the two navigation actions. -/
inductive GalleryEvent where
  | fetchResolve (r : FetchResult)
  | prevPage
  | nextPage
deriving DecidableEq, Repr

/-- Apply one event to the view state. -/
def applyEvent (s : GalleryState) : GalleryEvent → GalleryState
  | GalleryEvent.fetchResolve r => fetchImages s r
  | GalleryEvent.prevPage => goToPreviousPage s
  | GalleryEvent.nextPage => goToNextPage s

/-- Apply a sequence of events starting from `s`. -/
def runEvents (s : GalleryState) : List GalleryEvent → GalleryState
  | [] => s
  | e :: es => runEvents (applyEvent s e) es

/-- The states reachable from the initial state. -/
def Reachable (s : GalleryState) : Prop :=
  ∃ es : List GalleryEvent, runEvents initialState es = s

/-- The spec's view-state invariant: `totalPages` is an integer ≥ 1 and
`currentPage` is an integer in `[1, totalPages]`. -/
def PageInvariant (s : GalleryState) : Prop :=
  ∃ p t : Int, s.currentPage = JsNum.int p ∧ s.totalPages = JsNum.int t ∧
    1 ≤ t ∧ 1 ≤ p ∧ p ≤ t

/-- The rendered output of the `Gallery` component together with the
`Pagination` child: which indicators are shown and which pagination
controls are actionable. -/
structure RenderView where
  showLoading : Bool
  errorText : Option String
  showNoImages : Bool
  gridItems : List Image
  prevDisabled : Bool
  nextDisabled : Bool
deriving DecidableEq, Repr

/-- The render function: `isLoading && <p>Loading</p>`,
`error && <p>{error}</p>`, `images.length > 0 ? <ImageGrid/> :
<p>No images available</p>`, and the `Pagination` buttons disabled by
`currentPage === 1 || isLoading` and `currentPage === totalPages ||
isLoading` respectively. -/
def render (s : GalleryState) : RenderView :=
  { showLoading := s.isLoading
    errorText := s.error
    showNoImages := decide (¬ s.images.length > 0)
    gridItems := if s.images.length > 0 then s.images else []
    prevDisabled := jsStrictEq s.currentPage (JsNum.int 1) || s.isLoading
    nextDisabled := jsStrictEq s.currentPage s.totalPages || s.isLoading }

/-- Characters removed from the front of a username by
`^["'{]+` in `parseUsername`. -/
def leadChars : List Char := ['"', '\'', '{']

/-- Characters removed from the back of a username by
`[}"']+$` in `parseUsername`. -/
def trailChars : List Char := ['}', '"', '\'']

/-- `usernameString.replace(/^["'{]+|[}"']+$/g, '')`: drop the leading
run of characters from `leadChars`, then the trailing run of characters
from `trailChars`. -/
def cleanedString (s : String) : String :=
  String.mk (((s.data.dropWhile (· ∈ leadChars)).reverse.dropWhile
    (· ∈ trailChars)).reverse)

/-- `parseUsername(usernameString)`: non-strings and strings that clean
to empty become `"Unknown User"`; otherwise the cleaned string. -/
def parseUsername : JsVal → String
  | JsVal.str s =>
    let cleaned := cleanedString s
    if cleaned = "" then "Unknown User" else cleaned
  | _ => "Unknown User"

/-- A well-behaved successful response: whenever its shape is valid, the
declared current page is an integer inside `[1, resolved total]` and the
resolved total-page count is an integer ≥ 1. The server of the spec's
data model is expected to satisfy this; the code does not enforce it. -/
def GoodResponse (data : ResponseData) : Prop :=
  ∀ img : ImagesField, data.images = some img → img.rows.isSome →
    ∃ p t : Int, data.currentPage = JsNum.int p ∧
      calculatedTotalPages data img = JsNum.int t ∧ 1 ≤ t ∧ 1 ≤ p ∧ p ≤ t

/-- An event whose successful responses, if any, are well-behaved. -/
def GoodEvent : GalleryEvent → Prop
  | GalleryEvent.fetchResolve (FetchResult.success data) => GoodResponse data
  | _ => True

/-- The controller around the view state, modelling the effect wiring of
the component: `fetchImages` is a `useCallback` whose only non-constant
dependency is `currentPage` (its other dependencies are `useCallback`s
with empty dependency lists, hence stable), and the `useEffect` whose
dependency list is `[fetchImages]` re-runs exactly when that identity
changed since its last run, React comparing dependencies with
`Object.is`. `effectPage` is the `currentPage` the last effect run's
`fetchImages` was built from, and `fetchCount` counts issued fetches. -/
structure ControllerState where
  view : GalleryState
  effectPage : JsNum
  fetchCount : Nat
deriving DecidableEq, Repr

/-- The render-and-effects phase after a state update: the `useEffect`
on `[fetchImages]` fires, issuing one fetch, exactly when the
`currentPage` that `fetchImages` closes over differs (by `Object.is`)
from the one of its last run. -/
def commitEffects (c : ControllerState) : ControllerState :=
  if jsSameValue c.view.currentPage c.effectPage then c
  else { c with effectPage := c.view.currentPage, fetchCount := c.fetchCount + 1 }

/-- The Previous button's action followed by React's render/effect phase. -/
def navPrev (c : ControllerState) : ControllerState :=
  commitEffects { c with view := goToPreviousPage c.view }

/-- The Next button's action followed by React's render/effect phase. -/
def navNext (c : ControllerState) : ControllerState :=
  commitEffects { c with view := goToNextPage c.view }

/-- The source's `Math.ceil(n / 20)` on an integer agrees with the
rational ceiling of `n / 20`. -/
theorem ceilDivTwenty_eq_ceil (n : Int) : ceilDivTwenty n = ⌈(n : ℚ) / 20⌉ := by
  have h1 : ⌈(n : ℚ) / 20⌉ = -⌊-((n : ℚ) / 20)⌋ := by
    rw [← Int.ceil_neg, neg_neg]
  have h2 : -((n : ℚ) / 20) = ((-n : Int) : ℚ) / ((20 : ℕ) : ℚ) := by
    push_cast; ring
  rw [ceilDivTwenty, h1, h2, Rat.floor_intCast_div_natCast,
    Int.fdiv_eq_ediv _ (by norm_num)]
  norm_num

/-- A fetch resolving with a valid-shaped body lands in the success
branch of `updateGalleryState`. -/
theorem fetchImages_success_eq (s : GalleryState) (data : ResponseData)
    (img : ImagesField) (rows : List Image)
    (himg : data.images = some img) (hrows : img.rows = some rows) :
    fetchImages s (FetchResult.success data) =
      { s with
        images := rows
        currentPage := data.currentPage
        totalPages := calculatedTotalPages data img
        isLoading := false
        error := none } := by
  simp [fetchImages, updateGalleryState, himg, hrows]

/-- C1: for every response whose decoded body has the valid shape, the
fetch attempt ends with `items` equal to the response's rows,
`currentPage` equal to the declared current page, `error` null,
`isLoading` false, and `totalPages` equal to the declared total-page
count when that count is a positive integer, and otherwise equal to
`ceil(rowCount / 20)` with the fixed page size 20. -/
theorem fetchImages_success_valid_shape (s : GalleryState) (data : ResponseData)
    (img : ImagesField) (rows : List Image)
    (himg : data.images = some img) (hrows : img.rows = some rows) :
    (fetchImages s (FetchResult.success data)).images = rows ∧
    (fetchImages s (FetchResult.success data)).currentPage = data.currentPage ∧
    (fetchImages s (FetchResult.success data)).error = none ∧
    (fetchImages s (FetchResult.success data)).isLoading = false ∧
    (∀ t : Int, data.totalPages = JsNum.int t → 0 < t →
      (fetchImages s (FetchResult.success data)).totalPages = JsNum.int t) ∧
    ((¬ ∃ t : Int, data.totalPages = JsNum.int t ∧ 0 < t) →
      ∀ rc : Int, img.rowCount = JsNum.int rc →
        (fetchImages s (FetchResult.success data)).totalPages =
          JsNum.int ⌈(rc : ℚ) / 20⌉) := by
  rw [fetchImages_success_eq s data img rows himg hrows]
  refine ⟨rfl, rfl, rfl, rfl, ?_, ?_⟩
  · intro t ht htpos
    simp [calculatedTotalPages, jsGtZero, ht, htpos]
  · intro hnot rc hrc
    have hfalse : jsGtZero data.totalPages = false := by
      cases h : data.totalPages with
      | int n =>
        by_contra hc
        simp [jsGtZero] at hc
        exact hnot ⟨n, h, hc⟩
      | nan => rfl
      | undef => rfl
    simp [calculatedTotalPages, hfalse, jsCeilDivTwenty, hrc,
      ceilDivTwenty_eq_ceil]

/-- Witness for C1: a concrete valid response with two-page fallback
resolution (`totalPages = 0`, `rowCount = 35`). -/
theorem fetchImages_success_valid_shape_witness :
    (fetchImages initialState (FetchResult.success
      { images := some { rows := some [], rowCount := JsNum.int 35 },
        currentPage := JsNum.int 2, totalPages := JsNum.int 0 })).images = [] ∧
    (fetchImages initialState (FetchResult.success
      { images := some { rows := some [], rowCount := JsNum.int 35 },
        currentPage := JsNum.int 2, totalPages := JsNum.int 0 })).currentPage =
      ResponseData.currentPage
        { images := some { rows := some [], rowCount := JsNum.int 35 },
          currentPage := JsNum.int 2, totalPages := JsNum.int 0 } ∧
    (fetchImages initialState (FetchResult.success
      { images := some { rows := some [], rowCount := JsNum.int 35 },
        currentPage := JsNum.int 2, totalPages := JsNum.int 0 })).error = none ∧
    (fetchImages initialState (FetchResult.success
      { images := some { rows := some [], rowCount := JsNum.int 35 },
        currentPage := JsNum.int 2, totalPages := JsNum.int 0 })).isLoading = false ∧
    (∀ t : Int,
      ResponseData.totalPages
        { images := some { rows := some [], rowCount := JsNum.int 35 },
          currentPage := JsNum.int 2, totalPages := JsNum.int 0 } = JsNum.int t →
      0 < t →
      (fetchImages initialState (FetchResult.success
        { images := some { rows := some [], rowCount := JsNum.int 35 },
          currentPage := JsNum.int 2, totalPages := JsNum.int 0 })).totalPages =
        JsNum.int t) ∧
    ((¬ ∃ t : Int,
        ResponseData.totalPages
          { images := some { rows := some [], rowCount := JsNum.int 35 },
            currentPage := JsNum.int 2, totalPages := JsNum.int 0 } = JsNum.int t ∧
        0 < t) →
      ∀ rc : Int,
        ImagesField.rowCount { rows := some [], rowCount := JsNum.int 35 } =
          JsNum.int rc →
        (fetchImages initialState (FetchResult.success
          { images := some { rows := some [], rowCount := JsNum.int 35 },
            currentPage := JsNum.int 2, totalPages := JsNum.int 0 })).totalPages =
          JsNum.int ⌈(rc : ℚ) / 20⌉) :=
  fetchImages_success_valid_shape initialState
    { images := some { rows := some [], rowCount := JsNum.int 35 },
      currentPage := JsNum.int 2, totalPages := JsNum.int 0 }
    { rows := some [], rowCount := JsNum.int 35 } [] rfl rfl

/-- Counterexample to C2 as stated: from a state holding one image, a
transport failure leaves `items` non-empty (the stale item survives),
while the claim requires `items = []`. -/
theorem transport_failure_keeps_stale_items :
    (fetchImages
      { images := [{ id := 1
                     image_path := "/images/1.png"
                     prompt := "p"
                     username := JsVal.str "alice" }]
        currentPage := JsNum.int 1
        totalPages := JsNum.int 1
        isLoading := false
        error := none }
      FetchResult.failure).images ≠ [] := by
  decide

/-- C2 amended: a fetch attempt ending in a transport failure sets
`error` to the fixed transport message and `isLoading` to false, and
leaves `items`, `currentPage` and `totalPages` unchanged from before the
attempt (the stale item list is kept, not cleared). -/
theorem fetchImages_transport_failure (s : GalleryState) :
    fetchImages s FetchResult.failure =
      { s with
        error := some "Failed to load images. Please try again later."
        isLoading := false } :=
  rfl

/-- A fetch resolving with an invalid-shaped body lands in the failure
branch of `updateGalleryState`. -/
theorem fetchImages_invalid_eq (s : GalleryState) (data : ResponseData)
    (h : validShape data = false) :
    fetchImages s (FetchResult.success data) =
      { s with
        images := []
        error := some "Received invalid data from server"
        isLoading := false } := by
  unfold validShape at h
  cases himg : data.images with
  | none => simp [fetchImages, updateGalleryState, himg]
  | some img =>
    rw [himg] at h
    simp at h
    cases hrows : img.rows with
    | none => simp [fetchImages, updateGalleryState, himg, hrows]
    | some rows => simp [hrows] at h

/-- C3: a fetch attempt whose body fails shape validation (the `images`
container missing, or its `rows` not an array) ends with `items = []`,
the invalid-data error message, `isLoading = false`, and `currentPage`
and `totalPages` unchanged from before the attempt. -/
theorem fetchImages_invalid_shape (s : GalleryState) (data : ResponseData)
    (h : validShape data = false) :
    fetchImages s (FetchResult.success data) =
      { s with
        images := []
        error := some "Received invalid data from server"
        isLoading := false } :=
  fetchImages_invalid_eq s data h

/-- Witness for C3: the concrete body with no `images` container. -/
theorem fetchImages_invalid_shape_witness :
    validShape
      { images := none, currentPage := JsNum.undef, totalPages := JsNum.undef } =
      false ∧
    fetchImages initialState (FetchResult.success
      { images := none, currentPage := JsNum.undef, totalPages := JsNum.undef }) =
      { initialState with
        images := []
        error := some "Received invalid data from server"
        isLoading := false } :=
  ⟨rfl, fetchImages_invalid_shape initialState
    { images := none, currentPage := JsNum.undef, totalPages := JsNum.undef } rfl⟩

/-- C6: for every integer page `p ≥ 1` and total `t ≥ 1`, the
previous-page operation maps `p` to `max (p - 1) 1` and the next-page
operation maps `p` to `min (p + 1) t`, leaving every other field of the
view state unchanged; in particular `previous 1 = 1`, `previous 5 = 4`,
`next t = t`, and `next 3 = 4` when `t ≥ 4`. -/
theorem navigation_clamped (s : GalleryState) (p t : Int)
    (hp : s.currentPage = JsNum.int p) (_hp1 : 1 ≤ p)
    (ht : s.totalPages = JsNum.int t) (_ht1 : 1 ≤ t) :
    (goToPreviousPage s).currentPage = JsNum.int (max (p - 1) 1) ∧
    (goToNextPage s).currentPage = JsNum.int (min (p + 1) t) ∧
    (goToPreviousPage s).images = s.images ∧
    (goToPreviousPage s).totalPages = s.totalPages ∧
    (goToPreviousPage s).isLoading = s.isLoading ∧
    (goToPreviousPage s).error = s.error ∧
    (goToNextPage s).images = s.images ∧
    (goToNextPage s).totalPages = s.totalPages ∧
    (goToNextPage s).isLoading = s.isLoading ∧
    (goToNextPage s).error = s.error ∧
    (p = 1 → (goToPreviousPage s).currentPage = JsNum.int 1) ∧
    (p = 5 → (goToPreviousPage s).currentPage = JsNum.int 4) ∧
    (p = t → (goToNextPage s).currentPage = JsNum.int t) ∧
    (p = 3 → 4 ≤ t → (goToNextPage s).currentPage = JsNum.int 4) := by
  have hprev : (goToPreviousPage s).currentPage = JsNum.int (max (p - 1) 1) := by
    simp [goToPreviousPage, jsSub, jsMaxOne, hp]
  have hnext : (goToNextPage s).currentPage = JsNum.int (min (p + 1) t) := by
    simp [goToNextPage, jsAdd, jsMin, hp, ht]
  refine ⟨hprev, hnext, rfl, rfl, rfl, rfl, rfl, rfl, rfl, rfl, ?_, ?_, ?_, ?_⟩
  · intro hp1'
    rw [hprev, hp1']
    norm_num
  · intro hp5
    rw [hprev, hp5]
    norm_num
  · intro hpt
    rw [hnext, hpt]
    congr 1
    omega
  · intro hp3 ht4
    rw [hnext, hp3]
    congr 1
    omega

/-- One event preserves the page invariant, provided any successful
response it carries is well-behaved. -/
theorem applyEvent_pageInvariant (s : GalleryState) (e : GalleryEvent)
    (hs : PageInvariant s) (he : GoodEvent e) :
    PageInvariant (applyEvent s e) := by
  obtain ⟨p, t, hp, ht, ht1, hp1, hpt⟩ := hs
  cases e with
  | prevPage =>
    refine ⟨max (p - 1) 1, t, ?_, ht, ht1, le_max_right _ _, ?_⟩
    · simp [applyEvent, goToPreviousPage, jsSub, jsMaxOne, hp]
    · exact max_le (by omega) ht1
  | nextPage =>
    refine ⟨min (p + 1) t, t, ?_, ht, ht1, le_min (by omega) ht1, min_le_right _ _⟩
    simp [applyEvent, goToNextPage, jsAdd, jsMin, hp, ht]
  | fetchResolve r =>
    cases r with
    | failure => exact ⟨p, t, hp, ht, ht1, hp1, hpt⟩
    | success data =>
      cases himg : data.images with
      | none =>
        refine ⟨p, t, ?_, ?_, ht1, hp1, hpt⟩ <;>
          simp [applyEvent, fetchImages, updateGalleryState, himg, hp, ht]
      | some img =>
        cases hrows : img.rows with
        | none =>
          refine ⟨p, t, ?_, ?_, ht1, hp1, hpt⟩ <;>
            simp [applyEvent, fetchImages, updateGalleryState, himg, hrows, hp, ht]
        | some rows =>
          obtain ⟨q, u, hq, hu, hu1, hq1, hqu⟩ := he img himg (by simp [hrows])
          refine ⟨q, u, ?_, ?_, hu1, hq1, hqu⟩ <;>
            simp [applyEvent, fetchImages_success_eq s data img rows himg hrows,
              hq, hu]

/-- A run of well-behaved events preserves the page invariant. -/
theorem runEvents_pageInvariant (es : List GalleryEvent) (s : GalleryState)
    (hs : PageInvariant s) (hes : ∀ e ∈ es, GoodEvent e) :
    PageInvariant (runEvents s es) := by
  induction es generalizing s with
  | nil => exact hs
  | cons e es ih =>
    exact ih (applyEvent s e)
      (applyEvent_pageInvariant s e hs (hes e (List.mem_cons_self e es)))
      (fun e' he' => hes e' (List.mem_cons_of_mem e he'))

/-- Counterexample to C4 as stated: one successful fetch resolution with
the valid-shaped body `currentPage = 0, totalPages` absent,
`rowCount = 0` reaches a state with `currentPage = 0` and
`totalPages = 0`, violating `1 ≤ currentPage ≤ totalPages` and
`totalPages ≥ 1`. -/
theorem bad_response_breaks_page_invariant :
    Reachable { images := []
                currentPage := JsNum.int 0
                totalPages := JsNum.int 0
                isLoading := false
                error := none } ∧
    ¬ PageInvariant { images := []
                      currentPage := JsNum.int 0
                      totalPages := JsNum.int 0
                      isLoading := false
                      error := none } := by
  constructor
  · exact ⟨[GalleryEvent.fetchResolve (FetchResult.success
      { images := some { rows := some []
                         rowCount := JsNum.int 0 }
        currentPage := JsNum.int 0
        totalPages := JsNum.undef })], by decide⟩
  · rintro ⟨p, t, hp, ht, ht1, hp1, hpt⟩
    simp at hp
    omega

/-- C4 amended: the invariant `totalPages ≥ 1 ∧ 1 ≤ currentPage ≤
totalPages` holds in every state reached from the initial state by
navigation actions, failed fetch resolutions, and successful fetch
resolutions whose valid-shaped bodies are well-behaved (declared current
page an integer within `[1, resolved total]`, resolved total an integer
≥ 1); the code does not clamp server-supplied pages, so the restriction
to well-behaved responses is necessary. -/
theorem reachable_good_page_invariant (es : List GalleryEvent)
    (hes : ∀ e ∈ es, GoodEvent e) :
    PageInvariant (runEvents initialState es) :=
  runEvents_pageInvariant es initialState
    ⟨1, 1, rfl, rfl, le_refl 1, le_refl 1, le_refl 1⟩ hes

/-- Witness for C4: a concrete run with a no-op navigation, a transport
failure and a well-behaved successful response (`rowCount = 40`, so the
resolved total is `ceil(40/20) = 2`, and `currentPage = 2`). -/
theorem reachable_good_page_invariant_witness :
    (∀ e ∈ [GalleryEvent.prevPage,
            GalleryEvent.fetchResolve FetchResult.failure,
            GalleryEvent.fetchResolve (FetchResult.success
              { images := some { rows := some []
                                 rowCount := JsNum.int 40 }
                currentPage := JsNum.int 2
                totalPages := JsNum.undef })], GoodEvent e) ∧
    PageInvariant (runEvents initialState
      [GalleryEvent.prevPage,
       GalleryEvent.fetchResolve FetchResult.failure,
       GalleryEvent.fetchResolve (FetchResult.success
         { images := some { rows := some []
                            rowCount := JsNum.int 40 }
           currentPage := JsNum.int 2
           totalPages := JsNum.undef })]) := by
  have hes : ∀ e ∈ [GalleryEvent.prevPage,
      GalleryEvent.fetchResolve FetchResult.failure,
      GalleryEvent.fetchResolve (FetchResult.success
        { images := some { rows := some []
                           rowCount := JsNum.int 40 }
          currentPage := JsNum.int 2
          totalPages := JsNum.undef })], GoodEvent e := by
    intro e he
    simp only [List.mem_cons, List.not_mem_nil, or_false] at he
    rcases he with rfl | rfl | rfl
    · trivial
    · trivial
    · intro img himg _
      injection himg with h
      subst h
      exact ⟨2, 2, rfl, rfl, by norm_num, by norm_num, le_refl 2⟩
  exact ⟨hes, reachable_good_page_invariant _ hes⟩

/-- Counterexample to C5 as stated: in the (reachable) error state after
an invalid response, `items` is empty and `error` is set, and the render
still shows the "no images available" indicator, which the claim
forbids in an error state. -/
theorem no_images_indicator_despite_error :
    (render { images := []
              currentPage := JsNum.int 1
              totalPages := JsNum.int 1
              isLoading := false
              error := some "Received invalid data from server" }).showNoImages
      = true ∧
    GalleryState.error { images := []
                         currentPage := JsNum.int 1
                         totalPages := JsNum.int 1
                         isLoading := false
                         error := some "Received invalid data from server" }
      ≠ none := by
  constructor
  · decide
  · intro h
    simp at h

/-- C5 amended: for every view state whose pages satisfy the data-model
invariant, the "no images available" indicator shows exactly when
`items` is empty — whether or not an error is set — and Previous/Next
are actionable exactly when `currentPage > 1` resp. `currentPage <
totalPages` and not loading (the code compares with `===`, which agrees
with the strict inequalities inside the invariant's range). -/
theorem render_indicator_and_controls (s : GalleryState) (p t : Int)
    (hp : s.currentPage = JsNum.int p) (ht : s.totalPages = JsNum.int t)
    (hp1 : 1 ≤ p) (hpt : p ≤ t) :
    ((render s).showNoImages = true ↔ s.images = []) ∧
    ((render s).prevDisabled = false ↔ 1 < p ∧ s.isLoading = false) ∧
    ((render s).nextDisabled = false ↔ p < t ∧ s.isLoading = false) := by
  refine ⟨?_, ?_, ?_⟩
  · simp [render, List.length_eq_zero]
  · have : (render s).prevDisabled = (decide (p = 1) || s.isLoading) := by
      simp [render, jsStrictEq, hp]
    rw [this, Bool.or_eq_false_iff, decide_eq_false_iff_not]
    constructor
    · rintro ⟨h1, h2⟩
      exact ⟨by omega, h2⟩
    · rintro ⟨h1, h2⟩
      exact ⟨by omega, h2⟩
  · have : (render s).nextDisabled = (decide (p = t) || s.isLoading) := by
      simp [render, jsStrictEq, hp, ht]
    rw [this, Bool.or_eq_false_iff, decide_eq_false_iff_not]
    constructor
    · rintro ⟨h1, h2⟩
      exact ⟨by omega, h2⟩
    · rintro ⟨h1, h2⟩
      exact ⟨by omega, h2⟩

/-- Witness for C5 on a concrete mid-range state (`page 2 of 3`). -/
theorem render_indicator_and_controls_witness :
    ((render { images := []
               currentPage := JsNum.int 2
               totalPages := JsNum.int 3
               isLoading := false
               error := none }).showNoImages = true ↔
      GalleryState.images { images := []
                            currentPage := JsNum.int 2
                            totalPages := JsNum.int 3
                            isLoading := false
                            error := none } = []) ∧
    ((render { images := []
               currentPage := JsNum.int 2
               totalPages := JsNum.int 3
               isLoading := false
               error := none }).prevDisabled = false ↔
      1 < (2 : Int) ∧
      GalleryState.isLoading { images := []
                               currentPage := JsNum.int 2
                               totalPages := JsNum.int 3
                               isLoading := false
                               error := none } = false) ∧
    ((render { images := []
               currentPage := JsNum.int 2
               totalPages := JsNum.int 3
               isLoading := false
               error := none }).nextDisabled = false ↔
      (2 : Int) < 3 ∧
      GalleryState.isLoading { images := []
                               currentPage := JsNum.int 2
                               totalPages := JsNum.int 3
                               isLoading := false
                               error := none } = false) :=
  render_indicator_and_controls
    { images := []
      currentPage := JsNum.int 2
      totalPages := JsNum.int 3
      isLoading := false
      error := none } 2 3 rfl rfl (by norm_num) (by norm_num)

/-- Witness for C6 at `p = 1`, `t = 1` on the initial state. -/
theorem navigation_clamped_witness :
    (goToPreviousPage initialState).currentPage = JsNum.int (max (1 - 1) 1) ∧
    (goToNextPage initialState).currentPage = JsNum.int (min (1 + 1) 1) ∧
    (goToPreviousPage initialState).images = initialState.images ∧
    (goToPreviousPage initialState).totalPages = initialState.totalPages ∧
    (goToPreviousPage initialState).isLoading = initialState.isLoading ∧
    (goToPreviousPage initialState).error = initialState.error ∧
    (goToNextPage initialState).images = initialState.images ∧
    (goToNextPage initialState).totalPages = initialState.totalPages ∧
    (goToNextPage initialState).isLoading = initialState.isLoading ∧
    (goToNextPage initialState).error = initialState.error ∧
    ((1 : Int) = 1 → (goToPreviousPage initialState).currentPage = JsNum.int 1) ∧
    ((1 : Int) = 5 → (goToPreviousPage initialState).currentPage = JsNum.int 4) ∧
    ((1 : Int) = 1 → (goToNextPage initialState).currentPage = JsNum.int 1) ∧
    ((1 : Int) = 3 → 4 ≤ (1 : Int) →
      (goToNextPage initialState).currentPage = JsNum.int 4) :=
  navigation_clamped initialState 1 1 rfl (by norm_num) rfl (by norm_num)

/-- C7: from a quiescent controller (the data-loading effect has already
run for the current page), a navigation action that changes
`currentPage` issues exactly one new fetch, and a navigation action
that leaves `currentPage` unchanged (already at a bound, e.g. Previous
on page 1) issues none. -/
theorem navigation_fetch_discipline (c : ControllerState) (p t : Int)
    (hq : c.effectPage = c.view.currentPage)
    (hp : c.view.currentPage = JsNum.int p)
    (ht : c.view.totalPages = JsNum.int t) :
    ((goToPreviousPage c.view).currentPage ≠ c.view.currentPage →
      (navPrev c).fetchCount = c.fetchCount + 1) ∧
    ((goToPreviousPage c.view).currentPage = c.view.currentPage →
      (navPrev c).fetchCount = c.fetchCount) ∧
    ((goToNextPage c.view).currentPage ≠ c.view.currentPage →
      (navNext c).fetchCount = c.fetchCount + 1) ∧
    ((goToNextPage c.view).currentPage = c.view.currentPage →
      (navNext c).fetchCount = c.fetchCount) ∧
    (p = 1 → (navPrev c).fetchCount = c.fetchCount) := by
  have heff : c.effectPage = JsNum.int p := by rw [hq, hp]
  have hprev : (goToPreviousPage c.view).currentPage = JsNum.int (max (p - 1) 1) := by
    simp [goToPreviousPage, jsSub, jsMaxOne, hp]
  have hnext : (goToNextPage c.view).currentPage = JsNum.int (min (p + 1) t) := by
    simp [goToNextPage, jsAdd, jsMin, hp, ht]
  refine ⟨?_, ?_, ?_, ?_, ?_⟩
  · intro hne
    have hmax : ¬ (max (p - 1) 1 = p) := by
      intro hc
      exact hne (by rw [hprev, hp, hc])
    simp [navPrev, commitEffects, hprev, heff, jsSameValue, hmax]
  · intro heq
    have hmax : max (p - 1) 1 = p := by
      rw [hprev, hp] at heq
      injection heq
    simp [navPrev, commitEffects, hprev, heff, jsSameValue, hmax]
  · intro hne
    have hmin : ¬ (min (p + 1) t = p) := by
      intro hc
      exact hne (by rw [hnext, hp, hc])
    simp [navNext, commitEffects, hnext, heff, jsSameValue, hmin]
  · intro heq
    have hmin : min (p + 1) t = p := by
      rw [hnext, hp] at heq
      injection heq
    simp [navNext, commitEffects, hnext, heff, jsSameValue, hmin]
  · intro hp1
    have hmax : max (p - 1) 1 = p := by omega
    simp [navPrev, commitEffects, hprev, heff, jsSameValue, hmax]

/-- Witness for C7 on a quiescent controller at page 1 of 1: Previous
is a no-op there and issues no fetch. -/
theorem navigation_fetch_discipline_witness :
    ((goToPreviousPage initialState).currentPage ≠ initialState.currentPage →
      (navPrev { view := initialState
                 effectPage := JsNum.int 1
                 fetchCount := 0 }).fetchCount = 0 + 1) ∧
    ((goToPreviousPage initialState).currentPage = initialState.currentPage →
      (navPrev { view := initialState
                 effectPage := JsNum.int 1
                 fetchCount := 0 }).fetchCount = 0) ∧
    ((goToNextPage initialState).currentPage ≠ initialState.currentPage →
      (navNext { view := initialState
                 effectPage := JsNum.int 1
                 fetchCount := 0 }).fetchCount = 0 + 1) ∧
    ((goToNextPage initialState).currentPage = initialState.currentPage →
      (navNext { view := initialState
                 effectPage := JsNum.int 1
                 fetchCount := 0 }).fetchCount = 0) ∧
    ((1 : Int) = 1 →
      (navPrev { view := initialState
                 effectPage := JsNum.int 1
                 fetchCount := 0 }).fetchCount = 0) :=
  navigation_fetch_discipline
    { view := initialState
      effectPage := JsNum.int 1
      fetchCount := 0 } 1 1 rfl rfl rfl

/-- Counterexample to C8 as stated: a decoded body with a valid `images`
container but no current-page indicator (`currentPage = undefined`) is
accepted by the validator, and the fetch attempt ends with no error set
— not the MalformedResponse treatment the claim requires for bodies
lacking a current-page indicator. -/
theorem validator_accepts_missing_current_page :
    validShape { images := some { rows := some []
                                  rowCount := JsNum.undef }
                 currentPage := JsNum.undef
                 totalPages := JsNum.undef } = true ∧
    (fetchImages initialState (FetchResult.success
      { images := some { rows := some []
                         rowCount := JsNum.undef }
        currentPage := JsNum.undef
        totalPages := JsNum.undef })).error = none := by
  decide

/-- C8 amended: the response validator accepts a decoded body exactly
when it has an `images` container whose `rows` is an array; it performs
no current-page check, so a body lacking a current-page indicator is
accepted all the same, and exactly the bodies failing the container
check are signalled as invalid data. -/
theorem validShape_accepts_iff (data : ResponseData) :
    (validShape data = true ↔
      ∃ img rows, data.images = some img ∧ img.rows = some rows) ∧
    validShape { images := data.images
                 currentPage := JsNum.undef
                 totalPages := data.totalPages } = validShape data ∧
    (validShape data = false ↔
      (fetchImages initialState (FetchResult.success data)).error =
        some "Received invalid data from server") := by
  have h1 : validShape data = true ↔
      ∃ img rows, data.images = some img ∧ img.rows = some rows := by
    cases himg : data.images <;>
      simp [validShape, himg, Option.isSome_iff_exists]
  refine ⟨h1, rfl, ?_⟩
  constructor
  · intro h
    rw [fetchImages_invalid_eq initialState data h]
  · intro h
    cases hv : validShape data with
    | false => rfl
    | true =>
      obtain ⟨img, rows, himg, hrows⟩ := h1.mp hv
      rw [fetchImages_success_eq initialState data img rows himg hrows] at h
      simp at h

/-- C9: the username sanitizer is total: every non-string input yields
"Unknown User"; a string input is stripped of its leading run of
characters from the lead set (double quote, single quote, open brace)
and its trailing run from the trail set (close brace, double quote,
single quote), an empty stripped result being replaced by
"Unknown User"; concretely, brace-and-quote wrapped alice in all three
forms yields alice, and a bare brace pair yields "Unknown User". -/
theorem parseUsername_total_spec (v : JsVal) :
    ((∀ s : String, v ≠ JsVal.str s) → parseUsername v = "Unknown User") ∧
    (∀ s : String, v = JsVal.str s →
      parseUsername v =
        if cleanedString s = "" then "Unknown User" else cleanedString s) ∧
    parseUsername (JsVal.str "\x7b\"alice\"\x7d") = "alice" ∧
    parseUsername (JsVal.str "\x27alice\x27") = "alice" ∧
    parseUsername (JsVal.str "\x7balice\x7d") = "alice" ∧
    parseUsername (JsVal.str "\x7b\x7d") = "Unknown User" := by
  refine ⟨?_, ?_, by decide, by decide, by decide, by decide⟩
  · intro h
    cases v with
    | str s => exact absurd rfl (h s)
    | num x => rfl
    | boolean b => rfl
    | nullVal => rfl
    | undefVal => rfl
  · intro s hv
    subst hv
    rfl

/-- A list that is a prefix of a `dropWhile p` result is itself
unchanged by `dropWhile p`. -/
theorem dropWhile_eq_self_of_prefix_dropWhile {α : Type} (p : α → Bool)
    (l x : List α) (h : x <+: l.dropWhile p) : x.dropWhile p = x := by
  cases hx : x with
  | nil => simp
  | cons c x' =>
    rw [List.dropWhile_cons]
    obtain ⟨u, hu⟩ := h
    have hw : l.dropWhile p ≠ [] := by
      rw [← hu, hx]
      simp
    have hhead := List.head_dropWhile_not p l hw
    have hc : (l.dropWhile p).head hw = c := by
      rw [hx] at hu
      simp [← hu]
    rw [hc] at hhead
    simp [hhead]

/-- A nonempty list unchanged by `dropWhile p` has a head failing `p`. -/
theorem head_not_of_dropWhile_self {α : Type} (p : α → Bool) (l : List α)
    (hself : l.dropWhile p = l) (h : l ≠ []) : ¬ p (l.head h) = true := by
  cases l with
  | nil => exact absurd rfl h
  | cons a l' =>
    rw [List.dropWhile_cons] at hself
    intro hp
    have hpa : p a = true := hp
    rw [if_pos hpa] at hself
    have hle : (l'.dropWhile p).length ≤ l'.length :=
      (List.dropWhile_sublist p).length_le
    have hlen := congrArg List.length hself
    simp at hlen
    omega

/-- Cleaning an already-cleaned character list changes nothing. -/
theorem clean_chars_idem (l : List Char) :
    List.rdropWhile (· ∈ trailChars)
      ((List.rdropWhile (· ∈ trailChars)
        (l.dropWhile (· ∈ leadChars))).dropWhile (· ∈ leadChars)) =
      List.rdropWhile (· ∈ trailChars) (l.dropWhile (· ∈ leadChars)) := by
  rw [dropWhile_eq_self_of_prefix_dropWhile _ l _ (List.rdropWhile_prefix _ _),
    List.rdropWhile_idempotent]

/-- The username-cleaning pass is idempotent. -/
theorem cleanedString_idem (s : String) :
    cleanedString (cleanedString s) = cleanedString s :=
  congrArg String.mk (clean_chars_idem s.data)

/-- The sanitizer is idempotent on every input. -/
theorem parseUsername_idem (v : JsVal) :
    parseUsername (JsVal.str (parseUsername v)) = parseUsername v := by
  have hunk : parseUsername (JsVal.str "Unknown User") = "Unknown User" := by
    decide
  cases v with
  | str s =>
    by_cases h : cleanedString s = ""
    · have hres : parseUsername (JsVal.str s) = "Unknown User" := by
        simp [parseUsername, h]
      rw [hres, hunk]
    · have hres : parseUsername (JsVal.str s) = cleanedString s := by
        simp [parseUsername, h]
      rw [hres]
      simp [parseUsername, cleanedString_idem, h]
  | num x => exact hunk
  | boolean b => exact hunk
  | nullVal => exact hunk
  | undefVal => exact hunk

/-- A nonempty cleaned username starts outside the lead-strip set and
ends outside the trail-strip set. -/
theorem cleanedString_shape (s : String) (h : cleanedString s ≠ "") :
    (cleanedString s).data ≠ [] ∧
    ∀ hd : (cleanedString s).data ≠ [],
      (cleanedString s).data.head hd ∉ leadChars ∧
      (cleanedString s).data.getLast hd ∉ trailChars := by
  have hne : (cleanedString s).data ≠ [] := by
    intro hc
    apply h
    cases hs : cleanedString s with
    | mk l =>
      rw [hs] at hc
      simp at hc
      rw [hc]
  refine ⟨hne, fun hd => ⟨?_, ?_⟩⟩
  · have hself : (cleanedString s).data.dropWhile (· ∈ leadChars) =
        (cleanedString s).data :=
      dropWhile_eq_self_of_prefix_dropWhile _ s.data _
        (List.rdropWhile_prefix _ _)
    intro hmem
    exact head_not_of_dropWhile_self _ _ hself hd (decide_eq_true hmem)
  · intro hmem
    exact List.rdropWhile_last_not (· ∈ trailChars)
      (s.data.dropWhile (· ∈ leadChars)) hd (decide_eq_true hmem)

/-- C10: the sanitizer is idempotent and never yields the empty string:
its result is the placeholder "Unknown User" or a nonempty name whose
first character is outside the lead-strip set and whose last character
is outside the trail-strip set. -/
theorem parseUsername_idempotent_nonempty (v : JsVal) :
    parseUsername (JsVal.str (parseUsername v)) = parseUsername v ∧
    parseUsername v ≠ "" ∧
    (parseUsername v = "Unknown User" ∨
      ((parseUsername v).data ≠ [] ∧
        ∀ hd : (parseUsername v).data ≠ [],
          (parseUsername v).data.head hd ∉ leadChars ∧
          (parseUsername v).data.getLast hd ∉ trailChars)) := by
  have hunk : ("Unknown User" : String) ≠ "" := by decide
  refine ⟨parseUsername_idem v, ?_, ?_⟩
  · cases v with
    | str s =>
      by_cases h : cleanedString s = ""
      · have hres : parseUsername (JsVal.str s) = "Unknown User" := by
          simp [parseUsername, h]
        rw [hres]
        exact hunk
      · have hres : parseUsername (JsVal.str s) = cleanedString s := by
          simp [parseUsername, h]
        rw [hres]
        exact h
    | num x => exact hunk
    | boolean b => exact hunk
    | nullVal => exact hunk
    | undefVal => exact hunk
  · cases v with
    | str s =>
      by_cases h : cleanedString s = ""
      · left
        simp [parseUsername, h]
      · right
        have hres : parseUsername (JsVal.str s) = cleanedString s := by
          simp [parseUsername, h]
        simp only [hres]
        exact cleanedString_shape s h
    | num x => left; rfl
    | boolean b => left; rfl
    | nullVal => left; rfl
    | undefVal => left; rfl

end Gallery
